import Mathlib

/-!
# facet-kdl: shallow embedding and verification

This file embeds the core of the `facet-kdl` crate (KDL ⇄ typed-value
mapping) in Lean 4 and proves/refutes the frozen claims about it.

Embedding conventions:
* `src/serialize.rs` (the `KdlSerializer` and its `Serializer` impl,
  plus `to_string`) is embedded as an explicit state machine over
  `KdlSerializer` states, with the external `facet-serialize` driver
  represented as a list of `SerEvent`s.
* `src/lib.rs` (the `KdlDeserializer` methods) is embedded as functions
  over a builder-cursor state.  The `facet_reflect::Partial` builder is
  an external crate and is not part of this repository's sources; it is
  modelled from the specification (its doc comments below start with
  "Modelled from the spec:").
* Rust machine integers are `Int` with explicit two's-complement
  wrapping (`wrapI` / `wrapU`) where a cast occurs; `f64`/`f32` payloads
  are opaque bit tokens (`Int`) — no claim in this file depends on
  floating-point arithmetic.
* Fallible Rust code returns `Except` (serialization) or `RResult`
  (deserialization; `RResult.panic` models a Rust panic such as the
  `todo!()` in `deserialize_document`).
-/

namespace FacetKdl

set_option maxRecDepth 16384

/-! ## Document data model (the `kdl` crate's tree, as used by the source) -/

/-- A KDL document value: `kdl::KdlValue`.  `Float` carries an opaque
bit token for the `f64` payload. -/
inductive KdlValue where
  | String (s : String)
  | Bool (b : Bool)
  | Integer (n : Int)
  | Float (bits : Int)
  | Null
deriving DecidableEq, Repr

/-- A KDL entry: `kdl::KdlEntry` — either a positional argument
(`name = none`) or a named property. -/
structure KdlEntry where
  name : Option String
  value : KdlValue
deriving DecidableEq, Repr

/-- A KDL node: `kdl::KdlNode` — a name, ordered entries, and an
optional children block. -/
inductive KdlNode where
  | mk (name : String) (entries : List KdlEntry) (children : Option (List KdlNode))

def KdlNode.name : KdlNode → String
  | .mk n _ _ => n

def KdlNode.entries : KdlNode → List KdlEntry
  | .mk _ es _ => es

def KdlNode.children : KdlNode → Option (List KdlNode)
  | .mk _ _ ch => ch

/-- A KDL document is its list of top-level nodes. -/
abbrev KdlDocument := List KdlNode

/-! ## Scalar kinds and Rust scalar values -/

/-- `facet_reflect::ScalarType`, restricted to the variants matched in
`deserialize_scalar_value`. -/
inductive ScalarType where
  | String | CowStr | Bool
  | I8 | I16 | I32 | I64 | I128 | ISize
  | U8 | U16 | U32 | U64 | U128 | USize
  | F32 | F64 | Char
deriving DecidableEq, Repr

/-- Two's-complement truncation of an integer to an unsigned width `w`
(the semantics of a Rust `as uN` cast). -/
def wrapU (w : Nat) (n : Int) : Int := n.emod (2 ^ w)

/-- Two's-complement truncation of an integer to a signed width `w`
(the semantics of a Rust `as iN` cast). -/
def wrapI (w : Nat) (n : Int) : Int :=
  (n + 2 ^ (w - 1)).emod (2 ^ w) - 2 ^ (w - 1)

/-- Opaque bit token for the `n as f64` conversion (the spec calls this
an exact numeric widening, so the token keeps the integer). -/
def intToF64Bits (n : Int) : Int := n

/-- Opaque bit token for the `n as f32` conversion. -/
def intToF32Bits (n : Int) : Int := n

/-- Opaque bit token for the `f as f32` double-to-single conversion. -/
def f64ToF32Bits (bits : Int) : Int := bits

/-- Opaque bit token for the `v as f64` single-to-double conversion
(used by `serialize_f32`). -/
def f32ToF64Bits (bits : Int) : Int := bits

/-- A concrete Rust scalar value written through the builder
(`wip.set(...)` calls in `deserialize_scalar_value`). -/
inductive RustScalar where
  | rStr (s : String)
  | rCowStr (s : String)
  | rBool (b : Bool)
  | rChar (c : Char)
  | rI8 (n : Int) | rI16 (n : Int) | rI32 (n : Int)
  | rI64 (n : Int) | rI128 (n : Int) | rISize (n : Int)
  | rU8 (n : Int) | rU16 (n : Int) | rU32 (n : Int)
  | rU64 (n : Int) | rU128 (n : Int) | rUSize (n : Int)
  | rF32 (bits : Int) | rF64 (bits : Int)
deriving DecidableEq, Repr

/-- The action `deserialize_scalar_value` performs on the builder for a
given scalar kind and document value. -/
inductive CoerceResult where
  | set (v : RustScalar)
  | setDefault
  | parseFromStr (s : String)
  | error (msg : String)
deriving DecidableEq, Repr

/-- The `operation` string of the catch-all `ReflectError` in
`deserialize_scalar_value`. -/
def typeMismatchMsg : String := "Type mismatch in scalar deserialization"

/-- Embedding of `KdlDeserializer::deserialize_scalar_value`
(src/lib.rs:173-302): the ordered `match (scalar_type, value)` with its
range guards.  A failed integer-range guard falls through to the
catch-all arm (no other arm matches the same `ScalarType`), exactly as
in the source; a failed one-byte-string guard on `Char` falls through
to the `(_, String)` `parse_from_str` arm.  `isize`/`usize` are
modelled at 64 bits. -/
def deserialize_scalar_value (st : ScalarType) (v : KdlValue) : CoerceResult :=
  match st, v with
  | .String, .String s => .set (.rStr s)
  | .CowStr, .String s => .set (.rCowStr s)
  | .Bool, .Bool b => .set (.rBool b)
  | .I8, .Integer n =>
      if -128 ≤ n ∧ n ≤ 127 then .set (.rI8 (wrapI 8 n)) else .error typeMismatchMsg
  | .I16, .Integer n =>
      if -32768 ≤ n ∧ n ≤ 32767 then .set (.rI16 (wrapI 16 n)) else .error typeMismatchMsg
  | .I32, .Integer n =>
      if -(2 ^ 31) ≤ n ∧ n ≤ 2 ^ 31 - 1 then .set (.rI32 (wrapI 32 n))
      else .error typeMismatchMsg
  | .I64, .Integer n =>
      if -(2 ^ 63) ≤ n ∧ n ≤ 2 ^ 63 - 1 then .set (.rI64 (wrapI 64 n))
      else .error typeMismatchMsg
  | .I128, .Integer n => .set (.rI128 n)
  | .ISize, .Integer n =>
      if -(2 ^ 63) ≤ n ∧ n ≤ 2 ^ 63 - 1 then .set (.rISize (wrapI 64 n))
      else .error typeMismatchMsg
  | .U8, .Integer n =>
      if 0 ≤ n ∧ n ≤ 255 then .set (.rU8 (wrapU 8 n)) else .error typeMismatchMsg
  | .U16, .Integer n =>
      if 0 ≤ n ∧ n ≤ 65535 then .set (.rU16 (wrapU 16 n)) else .error typeMismatchMsg
  | .U32, .Integer n =>
      if 0 ≤ n ∧ n ≤ 2 ^ 32 - 1 then .set (.rU32 (wrapU 32 n))
      else .error typeMismatchMsg
  | .U64, .Integer n =>
      if 0 ≤ n ∧ n ≤ 2 ^ 64 - 1 then .set (.rU64 (wrapU 64 n))
      else .error typeMismatchMsg
  | .U128, .Integer n =>
      if 0 ≤ n then .set (.rU128 (wrapU 128 n)) else .error typeMismatchMsg
  | .USize, .Integer n =>
      if 0 ≤ n ∧ n ≤ 2 ^ 64 - 1 then .set (.rUSize (wrapU 64 n))
      else .error typeMismatchMsg
  | .F32, .Float f => .set (.rF32 (f64ToF32Bits f))
  | .F64, .Float f => .set (.rF64 f)
  | .F32, .Integer n => .set (.rF32 (intToF32Bits n))
  | .F64, .Integer n => .set (.rF64 (intToF64Bits n))
  | .Char, .String s =>
      if s.length = 1 then .set (.rChar s.toList.headI) else .parseFromStr s
  | _, .Null => .setDefault
  | _, .String s => .parseFromStr s
  | _, _ => .error typeMismatchMsg

/-! ## Serialization engine (src/serialize.rs) -/

/-- `KdlSerializeError` (src/serialize.rs:10-13). -/
structure KdlSerializeError where
  message : String
deriving DecidableEq, Repr

/-- `KdlSerializer` (src/serialize.rs:32-37): the document being built,
the node currently receiving entries, a stack of ancestor nodes, and
the pending property key. -/
structure KdlSerializer where
  document : List KdlNode
  current_node : Option KdlNode
  node_stack : List KdlNode
  current_key : Option String

/-- `KdlSerializer::new` (src/serialize.rs:41-48). -/
def KdlSerializer.new : KdlSerializer :=
  { document := [], current_node := none, node_stack := [], current_key := none }

/-- `KdlNode::new(name)`: fresh node, no entries, no children block. -/
def KdlNode.new (name : String) : KdlNode := .mk name [] none

/-- `KdlNode::push(entry)`: append an entry to the node. -/
def KdlNode.push (n : KdlNode) (e : KdlEntry) : KdlNode :=
  match n with
  | .mk nm es ch => .mk nm (es ++ [e]) ch

/-- The body shared by every scalar `serialize_*` method
(src/serialize.rs:66-72 and its copies): if a current node exists,
push the value as a property when a key is pending (taking the key),
else as a positional argument; with no current node, do nothing. -/
def pushEntryVal (s : KdlSerializer) (v : KdlValue) : KdlSerializer :=
  match s.current_node with
  | some node =>
      match s.current_key with
      | some key =>
          { s with current_node := some (node.push ⟨some key, v⟩), current_key := none }
      | none => { s with current_node := some (node.push ⟨none, v⟩) }
  | none => s

abbrev SerResult := Except KdlSerializeError KdlSerializer

/-- `serialize_bool` (src/serialize.rs:64-74). -/
def serialize_bool (s : KdlSerializer) (b : Bool) : SerResult :=
  .ok (pushEntryVal s (.Bool b))

/-- `serialize_i64` (src/serialize.rs:88-98); `v as i128` is a widening
cast, the identity on the mathematical value. -/
def serialize_i64 (s : KdlSerializer) (v : Int) : SerResult :=
  .ok (pushEntryVal s (.Integer v))

/-- `serialize_i8` (src/serialize.rs:76-78), delegating to
`serialize_i64` via a widening cast. -/
def serialize_i8 (s : KdlSerializer) (v : Int) : SerResult := serialize_i64 s v

/-- `serialize_i16` (src/serialize.rs:80-82). -/
def serialize_i16 (s : KdlSerializer) (v : Int) : SerResult := serialize_i64 s v

/-- `serialize_i32` (src/serialize.rs:84-86). -/
def serialize_i32 (s : KdlSerializer) (v : Int) : SerResult := serialize_i64 s v

/-- `serialize_i128` (src/serialize.rs:100-110). -/
def serialize_i128 (s : KdlSerializer) (v : Int) : SerResult :=
  .ok (pushEntryVal s (.Integer v))

/-- `serialize_u64` (src/serialize.rs:124-132).  The source guard is
`v > i128::MAX as u64`; the `as u64` cast truncates `i128::MAX`
two's-complement style, which `wrapU 64 (2 ^ 127 - 1)` reproduces
(it equals `2 ^ 64 - 1`, so the guard never fires for a real u64). -/
def serialize_u64 (s : KdlSerializer) (v : Nat) : SerResult :=
  if (v : Int) > wrapU 64 (2 ^ 127 - 1) then
    .error ⟨"u64 value is too large for KDL"⟩
  else serialize_i128 s (v : Int)

/-- `serialize_u8` (src/serialize.rs:112-114). -/
def serialize_u8 (s : KdlSerializer) (v : Nat) : SerResult := serialize_u64 s v

/-- `serialize_u16` (src/serialize.rs:116-118). -/
def serialize_u16 (s : KdlSerializer) (v : Nat) : SerResult := serialize_u64 s v

/-- `serialize_u32` (src/serialize.rs:120-122). -/
def serialize_u32 (s : KdlSerializer) (v : Nat) : SerResult := serialize_u64 s v

/-- `serialize_u128` (src/serialize.rs:134-142); `i128::MAX as u128`
is `2 ^ 127 - 1` exactly. -/
def serialize_u128 (s : KdlSerializer) (v : Nat) : SerResult :=
  if (v : Int) > 2 ^ 127 - 1 then
    .error ⟨"u128 value is too large for KDL"⟩
  else serialize_i128 s (v : Int)

/-- `serialize_f64` (src/serialize.rs:148-158); the payload is an
opaque bit token. -/
def serialize_f64 (s : KdlSerializer) (bits : Int) : SerResult :=
  .ok (pushEntryVal s (.Float bits))

/-- `serialize_f32` (src/serialize.rs:144-146). -/
def serialize_f32 (s : KdlSerializer) (bits : Int) : SerResult :=
  serialize_f64 s (f32ToF64Bits bits)

/-- `serialize_str` (src/serialize.rs:164-174). -/
def serialize_str (s : KdlSerializer) (v : String) : SerResult :=
  .ok (pushEntryVal s (.String v))

/-- `serialize_char` (src/serialize.rs:160-162). -/
def serialize_char (s : KdlSerializer) (c : Char) : SerResult :=
  serialize_str s (String.singleton c)

/-- `serialize_bytes` (src/serialize.rs:176-179): always an error. -/
def serialize_bytes (_s : KdlSerializer) (_bs : List Nat) : SerResult :=
  .error ⟨"Byte arrays not supported in KDL"⟩

/-- `serialize_none` (src/serialize.rs:181-191): pushes an explicit
Null entry on the current node (named when a key is pending). -/
def serialize_none (s : KdlSerializer) : SerResult :=
  .ok (pushEntryVal s .Null)

/-- `start_some` (src/serialize.rs:193-197): no-op. -/
def start_some (s : KdlSerializer) : SerResult := .ok s

/-- `serialize_unit` (src/serialize.rs:199-202): no-op. -/
def serialize_unit (s : KdlSerializer) : SerResult := .ok s

/-- `serialize_unit_variant` (src/serialize.rs:204-211). -/
def serialize_unit_variant (s : KdlSerializer) (_idx : Nat) (variant : String) :
    SerResult :=
  serialize_str s variant

/-- `start_object` (src/serialize.rs:213-217): no-op — no node is
pushed and the node stack is untouched. -/
def start_object (s : KdlSerializer) (_len : Option Nat) : SerResult := .ok s

/-- `serialize_field_name` (src/serialize.rs:219-224). -/
def serialize_field_name (s : KdlSerializer) (name : String) : SerResult :=
  .ok { s with current_key := some name }

/-- `start_array` (src/serialize.rs:226-230): no-op. -/
def start_array (s : KdlSerializer) (_len : Option Nat) : SerResult := .ok s

/-- `start_map` (src/serialize.rs:232-236): no-op. -/
def start_map (s : KdlSerializer) (_len : Option Nat) : SerResult := .ok s

/-- One callback of the external `facet-serialize` driver into the
`Serializer` impl: the driver's traversal of a value is represented as
the list of these events. -/
inductive SerEvent where
  | bool (b : Bool)
  | i8 (n : Int) | i16 (n : Int) | i32 (n : Int) | i64 (n : Int) | i128 (n : Int)
  | u8 (n : Nat) | u16 (n : Nat) | u32 (n : Nat) | u64 (n : Nat) | u128 (n : Nat)
  | f32 (bits : Int) | f64 (bits : Int)
  | char (c : Char) | str (v : String)
  | bytes (bs : List Nat)
  | none | startSome | unit
  | unitVariant (idx : Nat) (variant : String)
  | startObject (len : Option Nat) | fieldName (n : String)
  | startArray (len : Option Nat) | startMap (len : Option Nat)

/-- Dispatch one driver event to the corresponding `Serializer`
method. -/
def step (s : KdlSerializer) : SerEvent → SerResult
  | .bool b => serialize_bool s b
  | .i8 n => serialize_i8 s n
  | .i16 n => serialize_i16 s n
  | .i32 n => serialize_i32 s n
  | .i64 n => serialize_i64 s n
  | .i128 n => serialize_i128 s n
  | .u8 n => serialize_u8 s n
  | .u16 n => serialize_u16 s n
  | .u32 n => serialize_u32 s n
  | .u64 n => serialize_u64 s n
  | .u128 n => serialize_u128 s n
  | .f32 b => serialize_f32 s b
  | .f64 b => serialize_f64 s b
  | .char c => serialize_char s c
  | .str v => serialize_str s v
  | .bytes bs => serialize_bytes s bs
  | .none => serialize_none s
  | .startSome => start_some s
  | .unit => serialize_unit s
  | .unitVariant i v => serialize_unit_variant s i v
  | .startObject l => start_object s l
  | .fieldName n => serialize_field_name s n
  | .startArray l => start_array s l
  | .startMap l => start_map s l

/-- Run a driver event sequence, short-circuiting on the first error
(the `?` operator in `value.serialize(&mut serializer)?`). -/
def runEvents (s : KdlSerializer) : List SerEvent → SerResult
  | [] => .ok s
  | e :: rest =>
      match step s e with
      | .ok s2 => runEvents s2 rest
      | .error err => .error err

/-- Embedding of `to_string` (src/serialize.rs:240-255) up to the
external printer: create a serializer whose current node is a fresh
node named "root", run the value's traversal, then take the current
node (if any) and push it onto the document.  Returns the document
tree that `into_string` would print. -/
def to_string_document (events : List SerEvent) : Except KdlSerializeError KdlDocument :=
  let s0 := { KdlSerializer.new with current_node := some (KdlNode.new "root") }
  match runEvents s0 events with
  | .error e => .error e
  | .ok s1 =>
      match s1.current_node with
      | some node => .ok (s1.document ++ [node])
      | none => .ok s1.document

/-! ## Type shapes and typed values (the reflection layer's data) -/

/-- Field role, as declared through the derive attributes
(`#[facet(argument)]`, `#[facet(property)]`, `#[facet(child)]`) on the
types this crate deserializes into. -/
inductive Role where
  | argument | property | child
deriving DecidableEq, Repr

/-- Shape of a target type, as exposed by the reflection layer: a
scalar kind (with its `is_from_str` capability), a struct with an
ordered field list `(name, role, shape)`, an `Option`, or a list. -/
inductive FShape where
  | scalar (st : ScalarType) (fromStr : Bool)
  | structS (fields : List (String × Role × FShape))
  | option (inner : FShape)
  | listS (inner : FShape)

/-- `facet_core::Def`, restricted to what `deserialize_value` and
`deserialize_document` distinguish. -/
inductive DefKind where
  | Scalar | Undefined | ListDef | OptionDef
deriving DecidableEq, Repr

/-- The `Def` of a shape: scalars are `Def::Scalar`, plain structs are
`Def::Undefined` (they are distinguished by `Type::User(Struct)`),
options and lists have their own defs. -/
def FShape.defKind : FShape → DefKind
  | .scalar _ _ => .Scalar
  | .structS _ => .Undefined
  | .option _ => .OptionDef
  | .listS _ => .ListDef

/-- The check `wip.shape().type_identifier == "String"`. -/
def isStringShape : FShape → Bool
  | .scalar .String _ => true
  | _ => false

/-- The check `wip.shape().is_from_str()`. -/
def FShape.isFromStr : FShape → Bool
  | .scalar _ b => b
  | _ => false

/-- Whether a field of this shape is optional (a missing optional field
is not an error at finalize time). -/
def isOptionShape : FShape → Bool
  | .option _ => true
  | _ => false

/-- A typed in-memory value, shared between the serialization driver
(read side) and the builder cursor (write side).  `vDefault` is the
opaque result of `Default::default()` for a scalar type; `vParsed` is
the opaque result of a `FromStr` parse for a non-String type. -/
inductive FVal where
  | vScalar (r : RustScalar)
  | vStruct (fields : List (String × FVal))
  | vNone
  | vSome (v : FVal)
  | vList (xs : List FVal)
  | vDefault
  | vParsed (s : String)

/-- The scalar kind a concrete Rust scalar value belongs to (used to
decide whether `wip.set(value)` type-checks against the frame). -/
def scalarKindOf : RustScalar → ScalarType
  | .rStr _ => .String
  | .rCowStr _ => .CowStr
  | .rBool _ => .Bool
  | .rChar _ => .Char
  | .rI8 _ => .I8
  | .rI16 _ => .I16
  | .rI32 _ => .I32
  | .rI64 _ => .I64
  | .rI128 _ => .I128
  | .rISize _ => .ISize
  | .rU8 _ => .U8
  | .rU16 _ => .U16
  | .rU32 _ => .U32
  | .rU64 _ => .U64
  | .rU128 _ => .U128
  | .rUSize _ => .USize
  | .rF32 _ => .F32
  | .rF64 _ => .F64

/-! ## The builder cursor (external `facet_reflect::Partial`)

The `facet_reflect` crate is not part of this repository's sources.
The cursor below is modelled from the spec (§3 "Partial/Builder
cursor"): a stack-disciplined cursor with *enter field by name*,
*enter field by role-index* (the nth Argument-role field), *exit*
(commits the staged write and pops), *write scalar*, *write default*,
*parse from text*, and *finalize* (fails listing every required field
never entered, spec §7(c)).  Every operation also records itself in a
trace, which the theorems about binding order inspect. -/

/-- One recorded cursor operation. -/
inductive Op where
  | beginField (name : String)
  | beginNth (n : Nat)
  | endOp
  | visitValue (v : KdlValue)
  | writeScalar (r : RustScalar)
  | writeDefault
  | parseStr (s : String)
deriving DecidableEq, Repr

/-- A cursor frame: either a struct being filled slot by slot, or a
single value slot with a staged write.  `retIdx` is the slot of the
parent struct that receives this frame's value on exit. -/
inductive Frame where
  | fStruct (fields : List (String × Role × FShape)) (slots : List (Option FVal))
      (retIdx : Option Nat)
  | fLeaf (shape : FShape) (staged : Option FVal) (retIdx : Option Nat)

/-- The shape a frame presents as `wip.shape()`. -/
def Frame.shape : Frame → FShape
  | .fStruct fields _ _ => .structS fields
  | .fLeaf sh _ _ => sh

def Frame.retIdx : Frame → Option Nat
  | .fStruct _ _ r => r
  | .fLeaf _ _ r => r

/-- Deserialization error kinds (`KdlErrorKind`, src/lib.rs:54-60).
The `Parse` variant belongs to the external parser and is omitted. -/
inductive KdlErrorKind where
  | InvalidDocumentShape (d : DefKind)
  | MissingNodes (names : List String)
  | Reflect (msg : String)
deriving DecidableEq, Repr

/-- Outcome of running deserialization code: success, a structured
error, or a Rust panic (`todo!()`). -/
inductive RResult (α : Type) where
  | ok (a : α)
  | err (e : KdlErrorKind)
  | panic (msg : String)

/-- Modelled from the spec: the builder cursor state — a stack of
frames (top first; the bottom frame is the allocation root) plus the
trace of operations performed so far. -/
structure PBuilder where
  stack : List Frame
  trace : List Op

/-- Append an operation to the trace. -/
def PBuilder.record (p : PBuilder) (o : Op) : PBuilder :=
  { p with trace := p.trace ++ [o] }

/-- A fresh frame for a shape entered with a given parent slot. -/
def newFrame (sh : FShape) (retIdx : Option Nat) : Frame :=
  match sh with
  | .structS fields => .fStruct fields (List.replicate fields.length none) retIdx
  | sh => .fLeaf sh none retIdx

/-- `Partial::alloc::<T>()`: a cursor with a single root frame. -/
def PBuilder.alloc (sh : FShape) : PBuilder :=
  { stack := [newFrame sh none], trace := [] }

/-- The shape of the current frame (`wip.shape()`). -/
def PBuilder.shapeTop (p : PBuilder) : Option FShape :=
  p.stack.head?.map Frame.shape

/-- Modelled from the spec: `wip.begin_field(name)` — enter the field
of the current struct frame with the given name (any role); an error
if the current frame is not a struct or has no such field. -/
def PBuilder.begin_field (p : PBuilder) (name : String) : RResult PBuilder :=
  let p2 := p.record (.beginField name)
  match p2.stack with
  | .fStruct fields slots ret :: rest =>
      match fields.findIdx? (fun f => f.1 == name) with
      | some i =>
          match fields.get? i with
          | some (_, _, sh) =>
              .ok { p2 with stack := newFrame sh (some i) ::
                      .fStruct fields slots ret :: rest }
          | none => .err (.Reflect "begin_field: index out of range")
      | none => .err (.Reflect "begin_field: no such field")
  | _ => .err (.Reflect "begin_field: not a struct frame")

/-- The flat indices of the Argument-role fields, in declaration
order (spec §4.2: the Nth unnamed entry binds to the Nth Argument-role
field in declaration order). -/
def argumentFieldIdxs (fields : List (String × Role × FShape)) : List Nat :=
  (List.range fields.length).filter (fun i =>
    match fields.get? i with
    | some (_, .argument, _) => true
    | _ => false)

/-- Modelled from the spec: `wip.begin_nth_field(n)` — enter the nth
Argument-role field (spec §3 "enter field by role-index") of the
current struct frame. -/
def PBuilder.begin_nth_field (p : PBuilder) (n : Nat) : RResult PBuilder :=
  let p2 := p.record (.beginNth n)
  match p2.stack with
  | .fStruct fields slots ret :: rest =>
      match (argumentFieldIdxs fields).get? n with
      | some i =>
          match fields.get? i with
          | some (_, _, sh) =>
              .ok { p2 with stack := newFrame sh (some i) ::
                      .fStruct fields slots ret :: rest }
          | none => .err (.Reflect "begin_nth_field: index out of range")
      | none => .err (.Reflect "begin_nth_field: no such positional field")
  | _ => .err (.Reflect "begin_nth_field: not a struct frame")

/-- Whether `wip.set(value)` type-checks: the current shape must be
the scalar kind of the written value. -/
def setCompat (sh : FShape) (r : RustScalar) : Bool :=
  match sh with
  | .scalar st _ => st == scalarKindOf r
  | _ => false

/-- Modelled from the spec: `wip.set(value)` — stage a scalar write in
the current value frame; an error when the frame is a struct or the
scalar kind does not match. -/
def PBuilder.set (p : PBuilder) (r : RustScalar) : RResult PBuilder :=
  let p2 := p.record (.writeScalar r)
  match p2.stack with
  | .fLeaf sh _ ret :: rest =>
      if setCompat sh r then
        .ok { p2 with stack := .fLeaf sh (some (.vScalar r)) ret :: rest }
      else .err (.Reflect "set: shape mismatch")
  | _ => .err (.Reflect "set: not a value frame")

/-- Modelled from the spec: the default value of a shape, when it has
a meaningful one — `None` for options, the empty list for lists, the
opaque `Default::default()` for scalars; structs have none here. -/
def defaultFor : FShape → Option FVal
  | .option _ => some .vNone
  | .listS _ => some (.vList [])
  | .scalar _ _ => some .vDefault
  | .structS _ => none

/-- Modelled from the spec: `wip.set_default()` — stage the default
value of the current frame's type, failing if it has no meaningful
default. -/
def PBuilder.set_default (p : PBuilder) : RResult PBuilder :=
  let p2 := p.record .writeDefault
  match p2.stack with
  | .fLeaf sh _ ret :: rest =>
      match defaultFor sh with
      | some v => .ok { p2 with stack := .fLeaf sh (some v) ret :: rest }
      | none => .err (.Reflect "set_default: type has no default")
  | _ => .err (.Reflect "set_default: not a value frame")

/-- Modelled from the spec: the result of parsing a string with the
target type's own `FromStr`: the identity for `String`, an opaque
parsed value for other `is_from_str` types, no capability otherwise. -/
def parseFromStrVal : FShape → String → Option FVal
  | .scalar .String _, s => some (.vScalar (.rStr s))
  | .scalar _ true, s => some (.vParsed s)
  | _, _ => none

/-- Modelled from the spec: `wip.parse_from_str(s)` — stage the value
parsed from text, failing when the type cannot parse from text. -/
def PBuilder.parse_from_str (p : PBuilder) (s : String) : RResult PBuilder :=
  let p2 := p.record (.parseStr s)
  match p2.stack with
  | .fLeaf sh _ ret :: rest =>
      match parseFromStrVal sh s with
      | some v => .ok { p2 with stack := .fLeaf sh (some v) ret :: rest }
      | none => .err (.Reflect "parse_from_str: type cannot parse from text")
  | _ => .err (.Reflect "parse_from_str: not a value frame")

/-- The names of the required (non-optional) fields of a struct, in
declaration order. -/
def requiredNames (fields : List (String × Role × FShape)) : List String :=
  (fields.filter (fun f => !(isOptionShape f.2.2))).map (fun f => f.1)

/-- Modelled from the spec: assembling a struct from its slots.
Unfilled optional fields become `None`; unfilled required fields are
an error that lists every missing field name (spec §7(c)), mapped to
the crate's `KdlErrorKind::MissingNodes`. -/
def assembleStruct (fields : List (String × Role × FShape))
    (slots : List (Option FVal)) : RResult FVal :=
  let missing := ((fields.zip slots).filter
      (fun fs => !(isOptionShape fs.1.2.2) && fs.2.isNone)).map (fun fs => fs.1.1)
  if missing = [] then
    .ok (.vStruct ((fields.zip slots).map (fun fs => (fs.1.1,
      match fs.2 with
      | some v => v
      | none => .vNone))))
  else .err (.MissingNodes missing)

/-- The value a frame commits when it is exited or finalized. -/
def Frame.complete : Frame → RResult FVal
  | .fStruct fields slots _ => assembleStruct fields slots
  | .fLeaf _ (some v) _ => .ok v
  | .fLeaf _ none _ => .err (.Reflect "exit without a staged write")

/-- Modelled from the spec: `wip.end()` — exit the current field:
commit the staged write (or assembled struct) into the parent struct's
slot and pop the frame; a contract violation when there is no matching
enter. -/
def PBuilder.endField (p : PBuilder) : RResult PBuilder :=
  let p2 := p.record .endOp
  match p2.stack with
  | f :: .fStruct fields slots ret :: rest =>
      match f.retIdx with
      | some i =>
          match f.complete with
          | .ok v =>
              .ok { p2 with
                    stack := .fStruct fields (slots.set i (some v)) ret :: rest }
          | .err e => .err e
          | .panic m => .panic m
      | none => .err (.Reflect "exit: frame has no parent slot")
  | _ :: _ :: _ => .err (.Reflect "exit: parent is not a struct")
  | _ => .err (.Reflect "exit with no matching enter")

/-- Modelled from the spec: `typed_partial.build()` — finalize at the
root: only valid when the root frame is the only one left; a struct
root with unfilled required fields fails with the full list of their
names. -/
def PBuilder.build (p : PBuilder) : RResult FVal :=
  match p.stack with
  | [f] => f.complete
  | _ => .err (.Reflect "build: unfinished frames")

/-! ## Deserialization engine (src/lib.rs) -/

/-- Embedding of `deserialize_value` (src/lib.rs:97-171): dispatch on
the current shape's `Def`.  Scalars go through the coercion matrix
(`deserialize_scalar_value`) and perform the resulting builder action.
`Def::Undefined` shapes accept only String values, trying the direct
String write (`set_from_function` for `String`, `wip.set` otherwise)
and then the `parse_from_str` fallback before failing with
`InvalidDocumentShape`; non-String values and every other `Def` are an
`InvalidDocumentShape` error. -/
def deserialize_value (p : PBuilder) (v : KdlValue) : RResult PBuilder :=
  let p2 := p.record (.visitValue v)
  match p2.shapeTop with
  | none => .err (.Reflect "no current frame")
  | some sh =>
      match sh.defKind with
      | .Scalar =>
          match sh with
          | .scalar st _ =>
              match deserialize_scalar_value st v with
              | .set r => p2.set r
              | .setDefault => p2.set_default
              | .parseFromStr s => p2.parse_from_str s
              | .error msg => .err (.Reflect msg)
          | _ => .err (.Reflect "unreachable: Scalar def on non-scalar shape")
      | .Undefined =>
          match v with
          | .String s =>
              if isStringShape sh then p2.set (.rStr s)
              else
                match p2.set (.rStr s) with
                | .ok p3 => .ok p3
                | _ =>
                    match p2.parse_from_str s with
                    | .ok p3 => .ok p3
                    | _ => .err (.InvalidDocumentShape sh.defKind)
          | _ => .err (.InvalidDocumentShape sh.defKind)
      | _ => .err (.InvalidDocumentShape sh.defKind)

/-- Embedding of `deserialize_property` (src/lib.rs:304-332): enter
the field by name; a String-shaped `is_from_str` target takes a String
value through `parse_from_str` directly; everything else goes through
`deserialize_value`.  (No `end` is issued here, mirroring the
source.) -/
def deserialize_property (p : PBuilder) (name : String) (v : KdlValue) :
    RResult PBuilder :=
  match p.begin_field name with
  | .ok p2 =>
      match p2.shapeTop with
      | some sh =>
          if isStringShape sh && sh.isFromStr then
            match v with
            | .String s => p2.parse_from_str s
            | _ => deserialize_value p2 v
          else deserialize_value p2 v
      | none => .err (.Reflect "no current frame")
  | .err e => .err e
  | .panic m => .panic m

/-- Embedding of the per-node entry loop shared by
`deserialize_children` (src/lib.rs:348-358) and the child branch of
`deserialize_node` (src/lib.rs:454-471): unnamed entries get
`begin_nth_field(arg_index)` / `deserialize_value` / `end` with the
counter incremented, named entries go through
`deserialize_property`. -/
def deserialize_entries (p : PBuilder) (argIdx : Nat) :
    List KdlEntry → RResult PBuilder
  | [] => .ok p
  | e :: rest =>
      match e.name with
      | none =>
          match p.begin_nth_field argIdx with
          | .ok p2 =>
              match deserialize_value p2 e.value with
              | .ok p3 =>
                  match p3.endField with
                  | .ok p4 => deserialize_entries p4 (argIdx + 1) rest
                  | .err e2 => .err e2
                  | .panic m => .panic m
              | .err e2 => .err e2
              | .panic m => .panic m
          | .err e2 => .err e2
          | .panic m => .panic m
      | some nm =>
          match deserialize_property p nm e.value with
          | .ok p2 => deserialize_entries p2 argIdx rest
          | .err e2 => .err e2
          | .panic m => .panic m

mutual

/-- Embedding of `deserialize_children` (src/lib.rs:334-369): process
each child node in order. -/
def deserialize_children (p : PBuilder) : List KdlNode → RResult PBuilder
  | [] => .ok p
  | node :: rest =>
      match deserialize_child_node p node with
      | .ok p2 => deserialize_children p2 rest
      | .err e => .err e
      | .panic m => .panic m

/-- The body of the `deserialize_children` loop for one child node:
`begin_field(node name)`, the entry loop from `arg_index = 0`, the
recursive descent into nested children, then `end`. -/
def deserialize_child_node (p : PBuilder) : KdlNode → RResult PBuilder
  | .mk nm es ch =>
      match p.begin_field nm with
      | .ok p2 =>
          match deserialize_entries p2 0 es with
          | .ok p3 =>
              match (match ch with
                     | some cs => deserialize_children p3 cs
                     | none => .ok p3) with
              | .ok p4 => p4.endField
              | .err e => .err e
              | .panic m => .panic m
          | .err e => .err e
          | .panic m => .panic m
      | .err e => .err e
      | .panic m => .panic m

end

/-- The root-level entry loop of `deserialize_node`
(src/lib.rs:433-443): on a childless node with entries, a named entry
binds by its own name and an unnamed entry binds by the node's name,
both through `deserialize_property` — no positional counter exists on
this path. -/
def deserialize_root_entries (p : PBuilder) (nodeName : String) :
    List KdlEntry → RResult PBuilder
  | [] => .ok p
  | e :: rest =>
      match (match e.name with
             | some nm => deserialize_property p nm e.value
             | none => deserialize_property p nodeName e.value) with
      | .ok p2 => deserialize_root_entries p2 nodeName rest
      | .err e2 => .err e2
      | .panic m => .panic m

/-- The body of the `deserialize_node` loop (src/lib.rs:429-482) for
one top-level node: childless nodes with entries go through the
root-property branch; other nodes are entered by name and processed
with the positional entry loop; nested children are then descended
into, and `wip.end()` closes the node unconditionally. -/
def deserialize_root_node (p : PBuilder) (node : KdlNode) : RResult PBuilder :=
  match node with
  | .mk nm es ch =>
      match (if ch.isNone && !es.isEmpty then
               deserialize_root_entries p nm es
             else
               match p.begin_field nm with
               | .ok p2 => deserialize_entries p2 0 es
               | .err e => .err e
               | .panic m => .panic m) with
      | .ok p2 =>
          match (match ch with
                 | some cs => deserialize_children p2 cs
                 | none => .ok p2) with
          | .ok p3 => p3.endField
          | .err e => .err e
          | .panic m => .panic m
      | .err e => .err e
      | .panic m => .panic m

/-- Embedding of `deserialize_node` (src/lib.rs:425-485): process all
top-level nodes of the document. -/
def deserialize_node (p : PBuilder) : List KdlNode → RResult PBuilder
  | [] => .ok p
  | node :: rest =>
      match deserialize_root_node p node with
      | .ok p2 => deserialize_node p2 rest
      | .err e => .err e
      | .panic m => .panic m

/-- Embedding of `deserialize_document` (src/lib.rs:400-423): a struct
root enters per-node field resolution; every other root shape falls
into the `Def` match whose arms are all `todo!()` — a panic with
Rust's "not yet implemented" message, not an error return. -/
def deserialize_document (p : PBuilder) (doc : KdlDocument) : RResult PBuilder :=
  match p.shapeTop with
  | some (.structS fields) =>
      match fields with
      | _ => deserialize_node p doc
  | _ => .panic "not yet implemented"

/-- The post-parse pipeline of `KdlDeserializer::from_str`
(src/lib.rs:371-398): allocate the cursor, run
`deserialize_document`, then `build()`. -/
def deserializeDoc (sh : FShape) (doc : KdlDocument) : RResult FVal :=
  match deserialize_document (PBuilder.alloc sh) doc with
  | .ok p2 => p2.build
  | .err e => .err e
  | .panic m => .panic m

/-! ## The external `facet-serialize` read-side driver

Modelled from the spec (§4.4: fields are visited in declaration order
with their names; sequence fields emit one element after another) and
from the callback surface of the `Serializer` impl in
src/serialize.rs: scalars invoke their width's callback, a `None`
optional invokes `serialize_none`, a present optional `start_some`
then its payload, a struct `start_object` then, per field,
`serialize_field_name` and the field's value, a list `start_array`
then its elements. -/

/-- The serializer callback for one concrete scalar value. -/
def scalarEvent : RustScalar → SerEvent
  | .rStr s => .str s
  | .rCowStr s => .str s
  | .rBool b => .bool b
  | .rChar c => .char c
  | .rI8 n => .i8 n
  | .rI16 n => .i16 n
  | .rI32 n => .i32 n
  | .rI64 n => .i64 n
  | .rI128 n => .i128 n
  | .rISize n => .i64 n
  | .rU8 n => .u8 n.toNat
  | .rU16 n => .u16 n.toNat
  | .rU32 n => .u32 n.toNat
  | .rU64 n => .u64 n.toNat
  | .rU128 n => .u128 n.toNat
  | .rUSize n => .u64 n.toNat
  | .rF32 b => .f32 b
  | .rF64 b => .f64 b

mutual

/-- The driver's event trace for a value (opaque `vDefault`/`vParsed`
values have no traversal and contribute nothing). -/
def serializeEvents : FVal → List SerEvent
  | .vScalar r => [scalarEvent r]
  | .vStruct fs => .startObject none :: structFieldEvents fs
  | .vNone => [.none]
  | .vSome v => .startSome :: serializeEvents v
  | .vList xs => .startArray none :: listElemEvents xs
  | .vDefault => []
  | .vParsed _ => []

/-- Field-by-field events of a struct: the field name callback, then
the field's value events. -/
def structFieldEvents : List (String × FVal) → List SerEvent
  | [] => []
  | (n, v) :: rest => .fieldName n :: (serializeEvents v ++ structFieldEvents rest)

/-- Element-by-element events of a sequence. -/
def listElemEvents : List FVal → List SerEvent
  | [] => []
  | v :: rest => serializeEvents v ++ listElemEvents rest

end

/-- The round trip of the claim: serialize a value with `to_string`
(up to the external printer/parser, which are inverse of each other on
document trees), then deserialize the resulting document at the given
target shape. -/
def roundTrip (sh : FShape) (v : FVal) : RResult FVal :=
  match to_string_document (serializeEvents v) with
  | .ok doc => deserializeDoc sh doc
  | .error e => .err (.Reflect e.message)

/-! ## Concrete fixtures for counterexamples and witnesses -/

/-- A nested compound type: `struct Outer { inner: Inner }` with
`struct Inner { x: i64 }` (a child-role field holding a struct). -/
def innerShape : FShape := .structS [("x", .property, .scalar .I64 false)]

def outerShape : FShape := .structS [("inner", .child, innerShape)]

/-- The value `Outer { inner: Inner { x: 1 } }`. -/
def outerVal : FVal := .vStruct [("inner", .vStruct [("x", .vScalar (.rI64 1))])]

/-- A struct with one optional field absent:
`OptionalConfig { name: "t", description: None }`. -/
def optNoneVal : FVal :=
  .vStruct [("name", .vScalar (.rStr "t")), ("description", .vNone)]

/-- A struct whose only field is a property-role i64 named "n" (no
Argument-role field at all). -/
def propOnlyShape : FShape := .structS [("n", .property, .scalar .I64 false)]

/-- A document with a single childless top-level node "n" carrying one
unnamed (positional) entry `7`. -/
def propOnlyDoc : KdlDocument := [.mk "n" [⟨none, .Integer 7⟩] none]

/-- A struct with two Argument-role fields. -/
def twoArgShape : FShape :=
  .structS [("a", .argument, .scalar .I64 false), ("b", .argument, .scalar .Bool false)]

/-- Two unnamed entries for the two Argument-role fields. -/
def twoArgEntries : List KdlEntry := [⟨none, .Integer 7⟩, ⟨none, .Bool true⟩]

/-- The cursor state after running the entry loop on `twoArgEntries`
against `twoArgShape`: both slots filled, and the trace showing the
positional binds at indices 0 and 1. -/
def twoArgResult : PBuilder :=
  { stack := [.fStruct [("a", .argument, .scalar .I64 false),
      ("b", .argument, .scalar .Bool false)]
      [some (.vScalar (.rI64 7)), some (.vScalar (.rBool true))] none],
    trace := [.beginNth 0, .visitValue (.Integer 7), .writeScalar (.rI64 7), .endOp,
      .beginNth 1, .visitValue (.Bool true), .writeScalar (.rBool true), .endOp] }

/-- A struct whose first field is Property-role and whose second is
Argument-role: positional index 0 must reach flat field index 1. -/
def mixedRoleShape : FShape :=
  .structS [("m", .property, .scalar .Bool false), ("a", .argument, .scalar .I64 false)]

/-! ## Trace analysis for positional binding -/

/-- Whether a recorded operation is a positional enter. -/
def Op.isBeginNth : Op → Bool
  | .beginNth _ => true
  | _ => false

/-- The positional bindings in a trace: every `beginNth i`
immediately followed by the value visit that `deserialize_value`
records first. -/
def extractArgPairs : List Op → List (Nat × KdlValue)
  | .beginNth i :: .visitValue v :: rest => (i, v) :: extractArgPairs rest
  | _ :: rest => extractArgPairs rest
  | [] => []

/-- The values of the unnamed (positional) entries of a node, in
order. -/
def unnamedValues (es : List KdlEntry) : List KdlValue :=
  es.filterMap (fun e => match e.name with
    | none => some e.value
    | some _ => none)

/-! ## Claim C5: u8 boundary coercion -/

/-- C5: coercing the document Integer 255 into a u8-kind field succeeds
and yields 255; coercing 256 returns a coercion error; and no
out-of-range integer is ever silently wrapped to a different u8 value
(every out-of-range integer is rejected with the same error). -/
theorem c5_u8_boundary :
    deserialize_scalar_value .U8 (.Integer 255) = .set (.rU8 255) ∧
    deserialize_scalar_value .U8 (.Integer 256) = .error typeMismatchMsg ∧
    (∀ n : Int, ¬ (0 ≤ n ∧ n ≤ 255) →
      deserialize_scalar_value .U8 (.Integer n) = .error typeMismatchMsg) := by
  refine ⟨by decide, by decide, ?_⟩
  intro n hn
  simp only [deserialize_scalar_value, if_neg hn]

/-- Witness for C5 at the concrete out-of-range input 256. -/
theorem c5_u8_boundary_witness :
    deserialize_scalar_value .U8 (.Integer 256) = .error typeMismatchMsg :=
  c5_u8_boundary.2.2 256 (by decide)

/-! ## Claim C7: Null always maps to default construction -/

/-- C7: a document Null value against any scalar kind triggers the
builder's default construction (`wip.set_default()`), and never a
coercion error: the `(_, Null)` arm of `deserialize_scalar_value`
catches every scalar kind because all earlier arms require a String,
Bool, Integer or Float payload. -/
theorem c7_null_sets_default :
    ∀ st : ScalarType,
      deserialize_scalar_value st .Null = .setDefault ∧
      ∀ msg, deserialize_scalar_value st .Null ≠ .error msg := by
  intro st
  cases st <;> exact ⟨rfl, fun msg h => by simp [deserialize_scalar_value] at h⟩

/-! ## Serializer invariants -/

/-- `pushEntryVal` never touches the document, the node stack, or the
identity (name/children) of the current node; with no current node it
is the identity. -/
theorem pushEntryVal_preserves (s : KdlSerializer) (v : KdlValue) :
    (pushEntryVal s v).document = s.document ∧
    (pushEntryVal s v).node_stack = s.node_stack ∧
    (∀ n es ch, s.current_node = some (.mk n es ch) →
      ∃ es2, (pushEntryVal s v).current_node = some (.mk n es2 ch)) ∧
    (s.current_node = none → pushEntryVal s v = s) := by
  unfold pushEntryVal
  cases hc : s.current_node with
  | none => simp
  | some node =>
      cases node with
      | mk nm es ch =>
          cases hk : s.current_key <;>
            simp [KdlNode.push, hc]

/-- No single serializer operation modifies the document or the node
stack, and none replaces, removes or creates a current node: at most
entries are appended to the existing current node (and the pending key
may change). -/
theorem step_preserves (s : KdlSerializer) (e : SerEvent) (s2 : KdlSerializer)
    (h : step s e = .ok s2) :
    s2.document = s.document ∧ s2.node_stack = s.node_stack ∧
    (∀ n es ch, s.current_node = some (.mk n es ch) →
      ∃ es2, s2.current_node = some (.mk n es2 ch)) ∧
    (s.current_node = none → s2.current_node = none) := by
  have base : ∀ v, s2 = pushEntryVal s v →
      s2.document = s.document ∧ s2.node_stack = s.node_stack ∧
      (∀ n es ch, s.current_node = some (.mk n es ch) →
        ∃ es2, s2.current_node = some (.mk n es2 ch)) ∧
      (s.current_node = none → s2.current_node = none) := by
    intro v hv
    obtain ⟨h1, h2, h3, h4⟩ := pushEntryVal_preserves s v
    subst hv
    exact ⟨h1, h2, h3, fun hn => by rw [h4 hn, hn]⟩
  have triv : s2 = s →
      s2.document = s.document ∧ s2.node_stack = s.node_stack ∧
      (∀ n es ch, s.current_node = some (.mk n es ch) →
        ∃ es2, s2.current_node = some (.mk n es2 ch)) ∧
      (s.current_node = none → s2.current_node = none) := by
    rintro rfl
    exact ⟨rfl, rfl, fun n es ch hc => ⟨es, hc⟩, fun hn => hn⟩
  cases e with
  | bool b =>
      simp only [step, serialize_bool, Except.ok.injEq] at h
      exact base _ h.symm
  | i8 n =>
      simp only [step, serialize_i8, serialize_i64, Except.ok.injEq] at h
      exact base _ h.symm
  | i16 n =>
      simp only [step, serialize_i16, serialize_i64, Except.ok.injEq] at h
      exact base _ h.symm
  | i32 n =>
      simp only [step, serialize_i32, serialize_i64, Except.ok.injEq] at h
      exact base _ h.symm
  | i64 n =>
      simp only [step, serialize_i64, Except.ok.injEq] at h
      exact base _ h.symm
  | i128 n =>
      simp only [step, serialize_i128, Except.ok.injEq] at h
      exact base _ h.symm
  | u8 n =>
      simp only [step, serialize_u8, serialize_u64] at h
      split at h
      · cases h
      · simp only [serialize_i128, Except.ok.injEq] at h
        exact base _ h.symm
  | u16 n =>
      simp only [step, serialize_u16, serialize_u64] at h
      split at h
      · cases h
      · simp only [serialize_i128, Except.ok.injEq] at h
        exact base _ h.symm
  | u32 n =>
      simp only [step, serialize_u32, serialize_u64] at h
      split at h
      · cases h
      · simp only [serialize_i128, Except.ok.injEq] at h
        exact base _ h.symm
  | u64 n =>
      simp only [step, serialize_u64] at h
      split at h
      · cases h
      · simp only [serialize_i128, Except.ok.injEq] at h
        exact base _ h.symm
  | u128 n =>
      simp only [step, serialize_u128] at h
      split at h
      · cases h
      · simp only [serialize_i128, Except.ok.injEq] at h
        exact base _ h.symm
  | f32 b =>
      simp only [step, serialize_f32, serialize_f64, Except.ok.injEq] at h
      exact base _ h.symm
  | f64 b =>
      simp only [step, serialize_f64, Except.ok.injEq] at h
      exact base _ h.symm
  | char c =>
      simp only [step, serialize_char, serialize_str, Except.ok.injEq] at h
      exact base _ h.symm
  | str v =>
      simp only [step, serialize_str, Except.ok.injEq] at h
      exact base _ h.symm
  | bytes bs =>
      simp only [step, serialize_bytes] at h
      exact Except.noConfusion h
  | none =>
      simp only [step, serialize_none, Except.ok.injEq] at h
      exact base _ h.symm
  | startSome =>
      simp only [step, start_some, Except.ok.injEq] at h
      exact triv h.symm
  | unit =>
      simp only [step, serialize_unit, Except.ok.injEq] at h
      exact triv h.symm
  | unitVariant i v =>
      simp only [step, serialize_unit_variant, serialize_str, Except.ok.injEq] at h
      exact base _ h.symm
  | startObject l =>
      simp only [step, start_object, Except.ok.injEq] at h
      exact triv h.symm
  | fieldName n =>
      simp only [step, serialize_field_name, Except.ok.injEq] at h
      subst h
      exact ⟨rfl, rfl, fun n es ch hc => ⟨es, hc⟩, fun hn => hn⟩
  | startArray l =>
      simp only [step, start_array, Except.ok.injEq] at h
      exact triv h.symm
  | startMap l =>
      simp only [step, start_map, Except.ok.injEq] at h
      exact triv h.symm

/-- `runEvents` preserves the document, the node stack, and the
identity of the current node. -/
theorem runEvents_preserves (events : List SerEvent) :
    ∀ s s2, runEvents s events = .ok s2 →
      s2.document = s.document ∧ s2.node_stack = s.node_stack ∧
      (∀ n es ch, s.current_node = some (.mk n es ch) →
        ∃ es2, s2.current_node = some (.mk n es2 ch)) := by
  induction events with
  | nil =>
      intro s s2 h
      simp only [runEvents, Except.ok.injEq] at h
      subst h
      exact ⟨rfl, rfl, fun n es ch hc => ⟨es, hc⟩⟩
  | cons e rest ih =>
      intro s s2 h
      simp only [runEvents] at h
      cases hs : step s e with
      | error err => rw [hs] at h; cases h
      | ok s1 =>
          rw [hs] at h
          obtain ⟨hd1, hst1, hcn1, _⟩ := step_preserves s e s1 hs
          obtain ⟨hd2, hst2, hcn2⟩ := ih s1 s2 h
          refine ⟨hd2.trans hd1, hst2.trans hst1, fun n es ch hc => ?_⟩
          obtain ⟨es1, h1⟩ := hcn1 n es ch hc
          exact hcn2 n es1 ch h1

/-! ## Claim C9: single synthetic "root" node -/

/-- C9: whenever `to_string` succeeds, the produced document has
exactly one top-level node, that node is named "root", and it has no
children block: every entry the traversal emitted is attached to this
synthetic root node (driver events can only append entries to it). -/
theorem c9_single_root_node (events : List SerEvent) (d : KdlDocument)
    (h : to_string_document events = .ok d) :
    ∃ es, d = [KdlNode.mk "root" es none] := by
  simp only [to_string_document] at h
  cases hr : runEvents
      { KdlSerializer.new with current_node := some (KdlNode.new "root") } events with
  | error e => rw [hr] at h; cases h
  | ok s1 =>
      rw [hr] at h
      obtain ⟨hd, _, hcn⟩ := runEvents_preserves events _ s1 hr
      obtain ⟨es2, h2⟩ := hcn "root" [] none rfl
      have hdoc : s1.document = [] := by simpa using hd
      simp only [h2, hdoc, List.nil_append, Except.ok.injEq] at h
      exact ⟨es2, h.symm⟩

/-- Witness for C9 at the concrete driver trace of a one-field bool
value. -/
theorem c9_single_root_node_witness :
    ∃ es, ([KdlNode.mk "root" [⟨some "enabled", KdlValue.Bool true⟩] none] : KdlDocument)
      = [KdlNode.mk "root" es none] :=
  c9_single_root_node [.fieldName "enabled", .bool true] _ rfl

/-! ## Claim C10: scalar operations with no current node -/

/-- C10: every scalar-emitting serializer operation named by the claim
(`serialize_bool`, `serialize_i64`, `serialize_f64`, `serialize_str`,
`serialize_none`, and the widths delegating to them), when invoked
while `current_node` is `None`, returns success and leaves the whole
serializer state (document included) unchanged: the value is silently
dropped.  The unsigned widths carry their Rust-type bounds, under
which the `serialize_u64` guard cannot fire. -/
theorem c10_silent_drop_without_node (s : KdlSerializer)
    (h : s.current_node = none) :
    (∀ b, step s (.bool b) = .ok s) ∧
    (∀ n, step s (.i8 n) = .ok s) ∧
    (∀ n, step s (.i16 n) = .ok s) ∧
    (∀ n, step s (.i32 n) = .ok s) ∧
    (∀ n, step s (.i64 n) = .ok s) ∧
    (∀ n, step s (.i128 n) = .ok s) ∧
    (∀ b, step s (.f32 b) = .ok s) ∧
    (∀ b, step s (.f64 b) = .ok s) ∧
    (∀ v, step s (.str v) = .ok s) ∧
    (∀ c, step s (.char c) = .ok s) ∧
    step s .none = .ok s ∧
    (∀ n, n < 2 ^ 8 → step s (.u8 n) = .ok s) ∧
    (∀ n, n < 2 ^ 16 → step s (.u16 n) = .ok s) ∧
    (∀ n, n < 2 ^ 32 → step s (.u32 n) = .ok s) ∧
    (∀ n, n < 2 ^ 64 → step s (.u64 n) = .ok s) := by
  have hpush : ∀ v, pushEntryVal s v = s := fun v =>
    (pushEntryVal_preserves s v).2.2.2 h
  have hu64 : ∀ n : Nat, n < 2 ^ 64 → step s (.u64 n) = .ok s := by
    intro n hn
    have hle : ¬ ((n : Int) > wrapU 64 (2 ^ 127 - 1)) := by
      have hw : wrapU 64 (2 ^ 127 - 1) = 2 ^ 64 - 1 := by decide
      rw [hw]
      push_cast
      omega
    simp only [step, serialize_u64, if_neg hle, serialize_i128, hpush]
  refine ⟨?_, ?_, ?_, ?_, ?_, ?_, ?_, ?_, ?_, ?_, ?_, ?_, ?_, ?_, hu64⟩
  · intro b; simp only [step, serialize_bool, hpush]
  · intro n; simp only [step, serialize_i8, serialize_i64, hpush]
  · intro n; simp only [step, serialize_i16, serialize_i64, hpush]
  · intro n; simp only [step, serialize_i32, serialize_i64, hpush]
  · intro n; simp only [step, serialize_i64, hpush]
  · intro n; simp only [step, serialize_i128, hpush]
  · intro b; simp only [step, serialize_f32, serialize_f64, hpush]
  · intro b; simp only [step, serialize_f64, hpush]
  · intro v; simp only [step, serialize_str, hpush]
  · intro c; simp only [step, serialize_char, serialize_str, hpush]
  · simp only [step, serialize_none, hpush]
  · intro n hn; exact hu64 n (lt_trans hn (by norm_num))
  · intro n hn; exact hu64 n (lt_trans hn (by norm_num))
  · intro n hn; exact hu64 n (lt_trans hn (by norm_num))

/-- Witness for C10 at the all-empty serializer state and concrete
payloads. -/
theorem c10_silent_drop_without_node_witness :
    step KdlSerializer.new (.bool true) = .ok KdlSerializer.new ∧
    step KdlSerializer.new (.u64 255) = .ok KdlSerializer.new := by
  obtain ⟨h1, -, -, -, -, -, -, -, -, -, -, -, -, -, h15⟩ :=
    c10_silent_drop_without_node KdlSerializer.new rfl
  exact ⟨h1 true, h15 255 (by norm_num)⟩

/-! ## Claim C2: absent optionals during serialization -/

/-- Counterexample to C2: serializing a struct whose optional field
`description` is absent (`None`) emits an explicit Null-valued
property entry `description=null` on the node being built —
`serialize_none` (src/serialize.rs:181-191) pushes `KdlValue::Null`
instead of skipping the field. -/
theorem c2_counterexample_null_emitted :
    to_string_document (serializeEvents optNoneVal)
      = .ok [KdlNode.mk "root"
          [⟨some "name", .String "t"⟩, ⟨some "description", .Null⟩] none] := rfl

/-- C2 amended: when a current node exists, `serialize_none` pushes a
Null-valued entry onto it (a named property when a field key is
pending, a positional argument otherwise) and clears the pending key;
an absent optional is therefore recorded as an explicit Null, not
skipped.  (Nothing is emitted only when there is no current node.) -/
theorem c2_amended_none_pushes_null (s : KdlSerializer) (node : KdlNode)
    (h : s.current_node = some node) :
    serialize_none s = .ok { s with
      current_node := some (node.push ⟨s.current_key, .Null⟩),
      current_key := none } := by
  cases s with
  | mk d cn ns ck =>
      cases h
      cases ck <;> simp [serialize_none, pushEntryVal]

/-- Witness for C2 at the initial `to_string` state. -/
theorem c2_amended_none_pushes_null_witness :
    serialize_none { KdlSerializer.new with current_node := some (KdlNode.new "root") }
      = .ok { KdlSerializer.new with
              current_node := some ((KdlNode.new "root").push ⟨none, .Null⟩),
              current_key := none } :=
  c2_amended_none_pushes_null _ _ rfl

/-! ## Claim C3: serializer stack discipline -/

/-- Counterexample to C3: serializing the nested compound value
`Outer { inner: Inner { x: 1 } }` produces no nested child node at
all — the compound field is flattened onto the single synthetic root
node as the property `x=1` (the pending key "inner" is simply
overwritten), because `start_object` pushes nothing.  Under the claim,
entering the compound field `inner` would have pushed a fresh current
node and exiting would have appended it to the root's children. -/
theorem c3_counterexample_flattened :
    to_string_document (serializeEvents outerVal)
      = .ok [KdlNode.mk "root" [⟨some "x", .Integer 1⟩] none] := rfl

/-- C3 amended: the serializer state does carry a current node and a
node stack, but entering a compound field performs no push and exiting
performs no pop: `start_object` returns the state unchanged, and no
serializer operation ever modifies the node stack or replaces the
current node — every operation at most appends entries to it, so
nested compound values are flattened onto one node. -/
theorem c3_amended_no_stack_discipline :
    (∀ (s : KdlSerializer) (len : Option Nat), step s (.startObject len) = .ok s) ∧
    (∀ (s : KdlSerializer) (e : SerEvent) (s2 : KdlSerializer),
       step s e = .ok s2 →
       s2.node_stack = s.node_stack ∧
       ∀ n es ch, s.current_node = some (.mk n es ch) →
         ∃ es2, s2.current_node = some (.mk n es2 ch)) := by
  refine ⟨fun s len => rfl, fun s e s2 h => ?_⟩
  obtain ⟨-, h2, h3, -⟩ := step_preserves s e s2 h
  exact ⟨h2, h3⟩

/-- Witness for C3: one concrete step (a bool write) leaves the stack
empty and the current node in place. -/
theorem c3_amended_no_stack_discipline_witness :
    ({ KdlSerializer.new with
       current_node := some ((KdlNode.new "root").push ⟨none, .Bool true⟩) }
        : KdlSerializer).node_stack
      = ({ KdlSerializer.new with
           current_node := some (KdlNode.new "root") } : KdlSerializer).node_stack ∧
    ∀ n es ch,
      ({ KdlSerializer.new with
         current_node := some (KdlNode.new "root") } : KdlSerializer).current_node
        = some (.mk n es ch) →
      ∃ es2,
        ({ KdlSerializer.new with
           current_node := some ((KdlNode.new "root").push ⟨none, .Bool true⟩) }
            : KdlSerializer).current_node = some (.mk n es2 ch) :=
  c3_amended_no_stack_discipline.2 _ (.bool true) _ rfl

/-! ## Claim C4: non-struct root handling -/

/-- C4: for every input document, a root target whose shape is not a
struct makes `deserialize_document` reach the `todo!()` arms
(src/lib.rs:417-422) and panic with Rust's "not yet implemented"
message — it does not return the structured error that the claim and
`from_str`'s doc comment ("Returns a KdlError if the input KDL is
invalid or doesn't match T") promise. -/
theorem c4_non_struct_root_panics :
    ∀ (doc : KdlDocument),
      (∀ st b, deserialize_document (PBuilder.alloc (.scalar st b)) doc
                 = .panic "not yet implemented") ∧
      (∀ inner, deserialize_document (PBuilder.alloc (.option inner)) doc
                 = .panic "not yet implemented") ∧
      (∀ inner, deserialize_document (PBuilder.alloc (.listS inner)) doc
                 = .panic "not yet implemented") :=
  fun _ => ⟨fun _ _ => rfl, fun _ => rfl, fun _ => rfl⟩

/-! ## Claim C8: missing required fields are all reported -/

/-- With every slot unfilled, the missing-field computation of
`assembleStruct` reports exactly the required (non-optional) field
names, in declaration order. -/
theorem missing_all_unfilled (fields : List (String × Role × FShape)) :
    ((fields.zip (List.replicate fields.length (none : Option FVal))).filter
        (fun fs => !(isOptionShape fs.1.2.2) && fs.2.isNone)).map (fun fs => fs.1.1)
      = requiredNames fields := by
  induction fields with
  | nil => rfl
  | cons f fs ih =>
      simp only [List.length_cons, List.replicate_succ, List.zip_cons_cons,
        List.filter_cons, requiredNames] at *
      cases hopt : isOptionShape f.2.2 <;> simp [hopt, ih, requiredNames]

/-- C8: finalizing a struct root in which two or more required fields
were never filled (here: after consuming an empty document) produces a
single `MissingNodes` error that lists the names of all missing
required fields, not only the first. -/
theorem c8_missing_required_all_listed
    (fields : List (String × Role × FShape))
    (h2 : 2 ≤ (requiredNames fields).length) :
    deserializeDoc (.structS fields) [] = .err (.MissingNodes (requiredNames fields)) := by
  have hne : ¬ (requiredNames fields = []) := by
    intro hnil
    rw [hnil] at h2
    simp at h2
  simp only [deserializeDoc, deserialize_document, PBuilder.alloc, PBuilder.shapeTop,
    newFrame, List.head?, Option.map, Frame.shape, deserialize_node, PBuilder.build,
    Frame.complete, assembleStruct, missing_all_unfilled, if_neg hne]

/-- Witness for C8 with two concrete required fields. -/
theorem c8_missing_required_all_listed_witness :
    deserializeDoc (.structS [("a", .property, .scalar .I64 false),
        ("b", .property, .scalar .Bool false)]) []
      = .err (.MissingNodes ["a", "b"]) :=
  c8_missing_required_all_listed _ (by decide)

/-! ## Claim C1: round trip -/

/-- The `as i64` cast is the identity on in-range values. -/
theorem wrapI64_eq_self (n : Int) (h1 : -(2 ^ 63) ≤ n) (h2 : n ≤ 2 ^ 63 - 1) :
    wrapI 64 n = n := by
  unfold wrapI
  norm_num
  have he : (n + 9223372036854775808).emod 18446744073709551616
      = n + 9223372036854775808 := Int.emod_eq_of_lt (by linarith) (by linarith)
  rw [he]
  ring

/-- Counterexample to C1: for the supported nested-compound value
`Outer { inner: Inner { x: 1 } }`, serialization flattens everything
onto the synthetic "root" node (producing the property `x=1` there, no
child node), and deserializing that document at `Outer` fails when the
root-level property loop looks up a field "x" on `Outer` — so
`deserialize(serialize(v))` is an error, not `v`, even though `v` has
no optional field at all. -/
theorem c1_counterexample_nested :
    roundTrip outerShape outerVal = .err (.Reflect "begin_field: no such field") ∧
    roundTrip outerShape outerVal ≠ .ok outerVal := by
  refine ⟨rfl, fun h => ?_⟩
  rw [show roundTrip outerShape outerVal
      = RResult.err (.Reflect "begin_field: no such field") from rfl] at h
  cases h

/-- C1 amended: the round trip holds only for struct values with a
single scalar field (shown for a String property, a Bool property and
an in-range i64 argument field; the field's role does not matter since
serialization emits every field as a named property and the
root-level property loop re-binds it by name).  Values with nested
compound fields are flattened and fail to re-read (the
counterexample), and already a second scalar field fails under the
cursor discipline, because `deserialize_property` issues no `end`. -/
theorem c1_amended_single_scalar_roundtrip :
    (∀ (fname : String) (s : String),
       roundTrip (.structS [(fname, .property, .scalar .String true)])
         (.vStruct [(fname, .vScalar (.rStr s))])
       = .ok (.vStruct [(fname, .vScalar (.rStr s))])) ∧
    (∀ (fname : String) (b : Bool),
       roundTrip (.structS [(fname, .property, .scalar .Bool false)])
         (.vStruct [(fname, .vScalar (.rBool b))])
       = .ok (.vStruct [(fname, .vScalar (.rBool b))])) ∧
    (∀ (fname : String) (n : Int), -(2 ^ 63) ≤ n → n ≤ 2 ^ 63 - 1 →
       roundTrip (.structS [(fname, .argument, .scalar .I64 false)])
         (.vStruct [(fname, .vScalar (.rI64 n))])
       = .ok (.vStruct [(fname, .vScalar (.rI64 n))])) := by
  refine ⟨fun fname s => ?_, fun fname b => ?_, fun fname n h1 h2 => ?_⟩
  · simp [roundTrip, serializeEvents, structFieldEvents, scalarEvent,
      to_string_document, runEvents, step, serialize_field_name, serialize_str,
      start_object, pushEntryVal, KdlSerializer.new, KdlNode.new, KdlNode.push,
      KdlNode.name, KdlNode.entries, KdlNode.children,
      deserializeDoc, PBuilder.alloc, newFrame, deserialize_document,
      PBuilder.shapeTop, Frame.shape, deserialize_node, deserialize_root_node,
      deserialize_root_entries, deserialize_property, PBuilder.begin_field,
      PBuilder.record, isStringShape, FShape.isFromStr, PBuilder.parse_from_str,
      parseFromStrVal, PBuilder.endField, Frame.retIdx, Frame.complete,
      assembleStruct, PBuilder.build, List.findIdx?_cons, isOptionShape]
  · simp [roundTrip, serializeEvents, structFieldEvents, scalarEvent,
      to_string_document, runEvents, step, serialize_field_name, serialize_bool,
      start_object, pushEntryVal, KdlSerializer.new, KdlNode.new, KdlNode.push,
      KdlNode.name, KdlNode.entries, KdlNode.children,
      deserializeDoc, PBuilder.alloc, newFrame, deserialize_document,
      PBuilder.shapeTop, Frame.shape, deserialize_node, deserialize_root_node,
      deserialize_root_entries, deserialize_property, PBuilder.begin_field,
      PBuilder.record, isStringShape, FShape.isFromStr, deserialize_value,
      FShape.defKind, deserialize_scalar_value, PBuilder.set, setCompat,
      scalarKindOf, PBuilder.endField, Frame.retIdx, Frame.complete,
      assembleStruct, PBuilder.build, List.findIdx?_cons, isOptionShape]
  · have h1n : (-9223372036854775808 : Int) ≤ n := by linarith
    have h2n : n ≤ (9223372036854775807 : Int) := by linarith
    have hw : wrapI 64 n = n := wrapI64_eq_self n h1 h2
    simp [roundTrip, serializeEvents, structFieldEvents, scalarEvent,
      to_string_document, runEvents, step, serialize_field_name, serialize_i64,
      start_object, pushEntryVal, KdlSerializer.new, KdlNode.new, KdlNode.push,
      KdlNode.name, KdlNode.entries, KdlNode.children,
      deserializeDoc, PBuilder.alloc, newFrame, deserialize_document,
      PBuilder.shapeTop, Frame.shape, deserialize_node, deserialize_root_node,
      deserialize_root_entries, deserialize_property, PBuilder.begin_field,
      PBuilder.record, isStringShape, FShape.isFromStr, deserialize_value,
      FShape.defKind, deserialize_scalar_value, PBuilder.set, setCompat,
      scalarKindOf, PBuilder.endField, Frame.retIdx, Frame.complete,
      assembleStruct, PBuilder.build, List.findIdx?_cons, isOptionShape,
      h1n, h2n, hw]

/-- Witness for C1 at the concrete single-field value
`{ count: 42 }`. -/
theorem c1_amended_single_scalar_roundtrip_witness :
    roundTrip (.structS [("count", .argument, .scalar .I64 false)])
      (.vStruct [("count", .vScalar (.rI64 42))])
    = .ok (.vStruct [("count", .vScalar (.rI64 42))]) :=
  c1_amended_single_scalar_roundtrip.2.2 "count" 42 (by norm_num) (by norm_num)

/-! ## Claim C6: positional binding

Trace lemmas: every builder operation appends exactly its own record
to the trace, and neither `deserialize_value` nor
`deserialize_property` can record a positional enter. -/

theorem record_stack (p : PBuilder) (o : Op) : (p.record o).stack = p.stack := rfl

theorem record_trace (p : PBuilder) (o : Op) :
    (p.record o).trace = p.trace ++ [o] := rfl

theorem set_trace (p : PBuilder) (r : RustScalar) (p2 : PBuilder)
    (h : p.set r = .ok p2) : p2.trace = p.trace ++ [.writeScalar r] := by
  simp only [PBuilder.set] at h
  repeat' split at h
  all_goals (cases h <;> rfl)

theorem set_default_trace (p : PBuilder) (p2 : PBuilder)
    (h : p.set_default = .ok p2) : p2.trace = p.trace ++ [.writeDefault] := by
  simp only [PBuilder.set_default] at h
  repeat' split at h
  all_goals (cases h <;> rfl)

theorem parse_trace (p : PBuilder) (s : String) (p2 : PBuilder)
    (h : p.parse_from_str s = .ok p2) : p2.trace = p.trace ++ [.parseStr s] := by
  simp only [PBuilder.parse_from_str] at h
  repeat' split at h
  all_goals (cases h <;> rfl)

theorem begin_field_trace (p : PBuilder) (nm : String) (p2 : PBuilder)
    (h : p.begin_field nm = .ok p2) : p2.trace = p.trace ++ [.beginField nm] := by
  simp only [PBuilder.begin_field] at h
  repeat' split at h
  all_goals (cases h <;> rfl)

theorem begin_nth_trace (p : PBuilder) (n : Nat) (p2 : PBuilder)
    (h : p.begin_nth_field n = .ok p2) : p2.trace = p.trace ++ [.beginNth n] := by
  simp only [PBuilder.begin_nth_field] at h
  repeat' split at h
  all_goals (cases h <;> rfl)

theorem end_trace (p : PBuilder) (p2 : PBuilder)
    (h : p.endField = .ok p2) : p2.trace = p.trace ++ [.endOp] := by
  simp only [PBuilder.endField] at h
  repeat' split at h
  all_goals (cases h <;> rfl)

theorem dv_trace_aux (p : PBuilder) (v : KdlValue) (o : Op) (p2 : PBuilder)
    (hop : o.isBeginNth = false)
    (ht : p2.trace = (p.record (.visitValue v)).trace ++ [o]) :
    ∃ δ, p2.trace = p.trace ++ (.visitValue v :: δ) ∧
      ∀ o2 ∈ δ, o2.isBeginNth = false := by
  refine ⟨[o], ?_, ?_⟩
  · rw [ht, record_trace]
    simp
  · intro o2 ho2
    simp only [List.mem_singleton] at ho2
    subst ho2
    exact hop

/-- A successful `deserialize_value` records the value visit first and
then only write operations — never a positional enter. -/
theorem dv_trace (p : PBuilder) (v : KdlValue) (p2 : PBuilder)
    (h : deserialize_value p v = .ok p2) :
    ∃ δ, p2.trace = p.trace ++ (.visitValue v :: δ) ∧
      ∀ o ∈ δ, o.isBeginNth = false := by
  simp only [deserialize_value] at h
  split at h
  · exact RResult.noConfusion h
  · split at h
    · split at h
      · split at h
        · exact dv_trace_aux _ _ (.writeScalar _) _ rfl (set_trace _ _ _ h)
        · exact dv_trace_aux _ _ .writeDefault _ rfl (set_default_trace _ _ h)
        · exact dv_trace_aux _ _ (.parseStr _) _ rfl (parse_trace _ _ _ h)
        · exact RResult.noConfusion h
      · exact RResult.noConfusion h
    · split at h
      · split at h
        · exact dv_trace_aux _ _ (.writeScalar _) _ rfl (set_trace _ _ _ h)
        · split at h
          · rename_i p3 heq
            cases h
            exact dv_trace_aux _ _ (.writeScalar _) _ rfl (set_trace _ _ _ heq)
          · split at h
            · rename_i p3 heq
              cases h
              exact dv_trace_aux _ _ (.parseStr _) _ rfl (parse_trace _ _ _ heq)
            · exact RResult.noConfusion h
      · exact RResult.noConfusion h
    · exact RResult.noConfusion h

/-- A successful `deserialize_property` records a by-name enter and
value operations — never a positional enter. -/
theorem dp_trace (p : PBuilder) (nm : String) (v : KdlValue) (p2 : PBuilder)
    (h : deserialize_property p nm v = .ok p2) :
    ∃ δ, p2.trace = p.trace ++ δ ∧ ∀ o ∈ δ, o.isBeginNth = false := by
  simp only [deserialize_property] at h
  split at h
  all_goals try exact RResult.noConfusion h
  rename_i pa heq
  have hbf := begin_field_trace _ _ _ heq
  split at h
  · split at h
    · split at h
      · rename_i s
        have hp := parse_trace _ _ _ h
        refine ⟨[.beginField nm, .parseStr s], ?_, ?_⟩
        · rw [hp, hbf]; simp
        · intro o ho
          rcases List.mem_cons.mp ho with rfl | ho
          · rfl
          rcases List.mem_cons.mp ho with rfl | ho
          · rfl
          simp at ho
      · obtain ⟨δ, hd, hno⟩ := dv_trace _ _ _ h
        refine ⟨.beginField nm :: .visitValue v :: δ, ?_, ?_⟩
        · rw [hd, hbf]; simp
        · intro o ho
          rcases List.mem_cons.mp ho with rfl | ho
          · rfl
          rcases List.mem_cons.mp ho with rfl | ho
          · rfl
          exact hno o ho
    · obtain ⟨δ, hd, hno⟩ := dv_trace _ _ _ h
      refine ⟨.beginField nm :: .visitValue v :: δ, ?_, ?_⟩
      · rw [hd, hbf]; simp
      · intro o ho
        rcases List.mem_cons.mp ho with rfl | ho
        · rfl
        rcases List.mem_cons.mp ho with rfl | ho
        · rfl
        exact hno o ho
  · exact RResult.noConfusion h

/-- Operation lists containing no positional enter contribute no
positional binding pair. -/
theorem extractArgPairs_drop_noBN (δ rest : List Op)
    (h : ∀ o ∈ δ, o.isBeginNth = false) :
    extractArgPairs (δ ++ rest) = extractArgPairs rest := by
  induction δ with
  | nil => rfl
  | cons o δ2 ih =>
      have ho : o.isBeginNth = false := h o (by simp)
      have ih2 := ih (fun o2 ho2 => h o2 (by simp [ho2]))
      cases o
      case beginNth n => simp [Op.isBeginNth] at ho
      all_goals exact ih2

/-- The per-node entry loop passes the positional counter 0,1,2,… to
`begin_nth_field`, one bind per unnamed entry in order, regardless of
the entries' value kinds and of named entries interleaved among
them. -/
theorem deserialize_entries_trace (es : List KdlEntry) :
    ∀ (i : Nat) (p p2 : PBuilder),
      deserialize_entries p i es = .ok p2 →
      ∃ newOps, p2.trace = p.trace ++ newOps ∧
        extractArgPairs newOps = List.enumFrom i (unnamedValues es) := by
  induction es with
  | nil =>
      intro i p p2 h
      simp only [deserialize_entries] at h
      cases h
      exact ⟨[], by simp, rfl⟩
  | cons e rest ih =>
      intro i p p2 h
      simp only [deserialize_entries] at h
      cases hn : e.name with
      | none =>
          simp only [hn] at h
          split at h
          all_goals try exact RResult.noConfusion h
          rename_i pa heqa
          split at h
          all_goals try exact RResult.noConfusion h
          rename_i pb heqb
          split at h
          all_goals try exact RResult.noConfusion h
          rename_i pc heqc
          have ha := begin_nth_trace _ _ _ heqa
          obtain ⟨δ, hb, hno⟩ := dv_trace _ _ _ heqb
          have hc := end_trace _ _ heqc
          obtain ⟨T, hT, hE⟩ := ih (i + 1) pc p2 h
          refine ⟨.beginNth i :: .visitValue e.value :: (δ ++ .endOp :: T), ?_, ?_⟩
          · rw [hT, hc, hb, ha]
            simp
          · have h1 : extractArgPairs
                (.beginNth i :: .visitValue e.value :: (δ ++ .endOp :: T))
                = (i, e.value) :: extractArgPairs (δ ++ .endOp :: T) := rfl
            have h2 : extractArgPairs (δ ++ .endOp :: T)
                = extractArgPairs (.endOp :: T) :=
              extractArgPairs_drop_noBN δ _ hno
            have h3 : extractArgPairs (Op.endOp :: T) = extractArgPairs T := rfl
            rw [h1, h2, h3, hE]
            simp [unnamedValues, List.filterMap_cons, hn, List.enumFrom]
      | some nm =>
          simp only [hn] at h
          split at h
          all_goals try exact RResult.noConfusion h
          rename_i pa heqa
          obtain ⟨δ, hd, hno⟩ := dp_trace _ _ _ _ heqa
          obtain ⟨T, hT, hE⟩ := ih i pa p2 h
          refine ⟨δ ++ T, ?_, ?_⟩
          · rw [hT, hd]
            simp
          · rw [extractArgPairs_drop_noBN δ T hno, hE]
            simp [unnamedValues, List.filterMap_cons, hn]

/-- Counterexample to C6: a root-level childless node "n" with one
unnamed entry `7`, deserialized into a type whose only field is the
Property-role field "n" (there is no Argument-role field at all),
succeeds with the positional entry bound — by the node's name, through
`deserialize_property` — to that Property-role field.  Under the
claim, an unnamed entry can only bind to the Nth Argument-role field,
and with no Argument-role field present this document could not fill
"n" at all. -/
theorem c6_counterexample_root_positional_by_name :
    deserializeDoc propOnlyShape propOnlyDoc
      = .ok (.vStruct [("n", .vScalar (.rI64 7))]) := rfl

/-- C6 amended: on the child-node path (the entry loops of
src/lib.rs:348-358 and 454-471 — every node inside a children block,
and every root node that has a children block or no entries), the Nth
unnamed entry (0-indexed, counter reset per node) is bound via
`begin_nth_field(N)` — which, per the spec-modelled builder, enters
the Nth Argument-role field in declaration order — regardless of the
entries' value kinds and of interleaved named entries; but a
root-level node with entries and no children block instead routes each
unnamed entry through `deserialize_property` under the node's own
name (the counterexample). -/
theorem c6_amended_positional_binding :
    (∀ (es : List KdlEntry) (i : Nat) (p p2 : PBuilder),
       deserialize_entries p i es = .ok p2 →
       ∃ newOps, p2.trace = p.trace ++ newOps ∧
         extractArgPairs newOps = List.enumFrom i (unnamedValues es)) ∧
    (∀ (p : PBuilder) (fields : List (String × Role × FShape))
       (slots : List (Option FVal)) (ret : Option Nat) (rest : List Frame)
       (n i : Nat) (nm : String) (ro : Role) (sh : FShape),
       p.stack = .fStruct fields slots ret :: rest →
       (argumentFieldIdxs fields).get? n = some i →
       fields.get? i = some (nm, ro, sh) →
       p.begin_nth_field n =
         .ok { stack := newFrame sh (some i) :: .fStruct fields slots ret :: rest,
               trace := p.trace ++ [.beginNth n] }) := by
  constructor
  · exact fun es i p p2 h => deserialize_entries_trace es i p p2 h
  · intro p fields slots ret rest n i nm ro sh hstack hidx hget
    simp only [PBuilder.begin_nth_field, PBuilder.record, hstack, hidx, hget]

/-- Witness for C6: the concrete two-argument run binds indices 0 and
1 to the two unnamed entries, and positional index 0 on a type whose
Argument-role field sits at flat index 1 enters exactly that field. -/
theorem c6_amended_positional_binding_witness :
    (∃ newOps, twoArgResult.trace = (PBuilder.alloc twoArgShape).trace ++ newOps ∧
       extractArgPairs newOps = List.enumFrom 0 (unnamedValues twoArgEntries)) ∧
    (PBuilder.alloc mixedRoleShape).begin_nth_field 0
      = .ok { stack := [.fLeaf (.scalar .I64 false) none (some 1),
                .fStruct [("m", .property, .scalar .Bool false),
                  ("a", .argument, .scalar .I64 false)] [none, none] none],
              trace := [.beginNth 0] } :=
  ⟨c6_amended_positional_binding.1 twoArgEntries 0 (PBuilder.alloc twoArgShape)
      twoArgResult rfl,
   c6_amended_positional_binding.2 (PBuilder.alloc mixedRoleShape) _ _ _ _ 0 1
      "a" .argument (.scalar .I64 false) rfl rfl rfl⟩

end FacetKdl
